import Mathlib

/-!
Verification development for the MSusik.github.io single-page application.

The embedded code comes from two places in the repository:

* the Vuex store declared in the application bootstrap script
  (state, getters, and the three mutations `cacheImages`, `changeImage`,
  `changeBackgroundInTransition`);
* the two variants of the vue-router route table (`src/router.js`, which maps
  the second article route to `CudaPart1`, and the other variant which maps
  `/about` to `About`).

Stateful store code is embedded as explicit state passing: each mutation is a
function from the store state (plus its payload) to the new store state
together with the list of image-request URLs it issues.
-/

namespace Blog

/-- The Vuex store state:
`state: { base: '...', image: '2.png', images: [...], backgroundInTransition: false }`. -/
structure StoreState where
  base : String
  image : String
  images : List String
  backgroundInTransition : Bool
  deriving Repr, DecidableEq

/-- The initial store state, with the literal field values from the source. -/
def initState : StoreState :=
  { base := "https://raw.githubusercontent.com/MSusik/msusik.github.io/development/src/assets/backs/"
  , image := "2.png"
  , images := ["1.png", "2.png", "3.png", "4.png", "5.png", "6.png"]
  , backgroundInTransition := false }

/-- Getter `base: state => state.base`. -/
def getterBase (state : StoreState) : String := state.base

/-- Getter `images: state => state.images`. -/
def getterImages (state : StoreState) : List String := state.images

/-- Getter `image: state => state.image`. -/
def getterImage (state : StoreState) : String := state.image

/-- Getter `backgroundInTransition: state => state.backgroundInTransition`. -/
def getterBackgroundInTransition (state : StoreState) : Bool :=
  state.backgroundInTransition

/-- The body of the `forEach` loop in the `cacheImages` mutation, unrolled over
the list: for each entry `img` of the traversed list, in order, one image
request with URL `state.base + img` (`new Image().src = state.base + img`). -/
def cacheImagesRequests (base : String) : List String → List String
  | [] => []
  | img :: rest => (base ++ img) :: cacheImagesRequests base rest

/-- Mutation `cacheImages (state)`: traverses `state.images` issuing one image
request per entry; it assigns no field of `state`, so the state component of
the result is the input state. -/
def cacheImages (state : StoreState) : StoreState × List String :=
  (state, cacheImagesRequests state.base state.images)

/-- Mutation `changeImage (state, { image })`: `state.image = image`.
It issues no image request. -/
def changeImage (state : StoreState) (image : String) : StoreState × List String :=
  ({ state with image := image }, [])

/-- Mutation `changeBackgroundInTransition (state, { value })`:
`state.backgroundInTransition = value`. It issues no image request. -/
def changeBackgroundInTransition (state : StoreState) (value : Bool) :
    StoreState × List String :=
  ({ state with backgroundInTransition := value }, [])

/-- A route entry's target: either a redirect to another path or a mapping to
a named component. -/
inductive RouteTarget where
  | redirect (dest : String)
  | component (name : String)
  deriving Repr, DecidableEq

/-- One entry of the `routes` array of the vue-router configuration. -/
structure Route where
  path : String
  target : RouteTarget
  deriving Repr, DecidableEq

/-- The route table of `src/router.js` (the variant bundling the `CudaPart1`
article component). -/
def routesCuda : List Route :=
  [ { path := "/", target := .redirect "/implementing_smith_waterman_on_CUDA_part_1" }
  , { path := "/upmath", target := .component "Upmath" }
  , { path := "/implementing_smith_waterman_on_CUDA_part_1", target := .component "CudaPart1" } ]

/-- The route table of the other router variant (the one bundling the `About`
component). -/
def routesAbout : List Route :=
  [ { path := "/", target := .redirect "/upmath" }
  , { path := "/upmath", target := .component "Upmath" }
  , { path := "/about", target := .component "About" } ]

/-- Static route resolution: the target of the first route table entry whose
path equals the navigated path, if any. -/
def resolve (routes : List Route) (path : String) : Option RouteTarget :=
  (routes.find? (fun r => r.path == path)).map (·.target)

/-- Navigation with one level of redirect following, as vue-router performs it
on these static tables: resolve the path; if the entry is a redirect, resolve
the redirect target and render that component. -/
def navigate (routes : List Route) (path : String) : Option RouteTarget :=
  match resolve routes path with
  | some (.redirect dest) => resolve routes dest
  | other => other

end Blog

namespace Blog

/-- C1: invoking `changeImage` with payload `{ image: f }` makes the
current-image getter return exactly `f`, from any starting state. -/
theorem changeImage_sets_getterImage (state : StoreState) (f : String) :
    getterImage (changeImage state f).1 = f := rfl

/-- C2: `cacheImages` issues exactly one image request per entry of the
configured images list, and the list of requested URLs equals the images list
mapped through concatenation of the base with the filename, in order. -/
theorem cacheImages_requests_eq_map (state : StoreState) :
    (cacheImages state).2 = state.images.map (fun f => state.base ++ f) := by
  show cacheImagesRequests state.base state.images
      = state.images.map (fun f => state.base ++ f)
  induction state.images with
  | nil => rfl
  | cons img rest ih => simp [cacheImagesRequests, ih]

/-- C3: in both router variants, the route table's entry for `/` is a redirect
to the variant's default article path, not a component mapping, and navigating
to `/` resolves to that redirect target. -/
theorem root_path_redirects :
    resolve routesCuda "/" = some (.redirect "/implementing_smith_waterman_on_CUDA_part_1")
    ∧ resolve routesAbout "/" = some (.redirect "/upmath")
    ∧ navigate routesCuda "/" = some (.component "CudaPart1")
    ∧ navigate routesAbout "/" = some (.component "Upmath") := by
  decide

/-- C4: invoking `changeBackgroundInTransition` with payload `{ value: b }`
makes the `backgroundInTransition` getter return exactly `b`, from any
starting state. -/
theorem changeBackgroundInTransition_sets_getter (state : StoreState) (b : Bool) :
    getterBackgroundInTransition (changeBackgroundInTransition state b).1 = b := rfl

/-- C5: each routing table has exactly three static entries — `/`, `/upmath`
mapped to `Upmath`, and (depending on variant) `/about` mapped to `About` or
`/implementing_smith_waterman_on_CUDA_part_1` mapped to `CudaPart1`;
navigating to `/upmath` renders `Upmath` and navigating to the second route
renders its corresponding component. -/
theorem route_tables_exact :
    routesCuda =
      [ { path := "/", target := .redirect "/implementing_smith_waterman_on_CUDA_part_1" }
      , { path := "/upmath", target := .component "Upmath" }
      , { path := "/implementing_smith_waterman_on_CUDA_part_1",
          target := .component "CudaPart1" } ]
    ∧ routesAbout =
      [ { path := "/", target := .redirect "/upmath" }
      , { path := "/upmath", target := .component "Upmath" }
      , { path := "/about", target := .component "About" } ]
    ∧ navigate routesCuda "/upmath" = some (.component "Upmath")
    ∧ navigate routesCuda "/implementing_smith_waterman_on_CUDA_part_1"
        = some (.component "CudaPart1")
    ∧ navigate routesAbout "/upmath" = some (.component "Upmath")
    ∧ navigate routesAbout "/about" = some (.component "About") := by
  decide

/-- C6: `state.base` is unchanged by every mutation entry point, for every
argument. -/
theorem base_constant (state : StoreState) (f : String) (b : Bool) :
    (cacheImages state).1.base = state.base
    ∧ (changeImage state f).1.base = state.base
    ∧ (changeBackgroundInTransition state b).1.base = state.base :=
  ⟨rfl, rfl, rfl⟩

/-- C7: `state.images` is unchanged (same elements, same order) by every
mutation entry point, for every argument. -/
theorem images_constant (state : StoreState) (f : String) (b : Bool) :
    (cacheImages state).1.images = state.images
    ∧ (changeImage state f).1.images = state.images
    ∧ (changeBackgroundInTransition state b).1.images = state.images :=
  ⟨rfl, rfl, rfl⟩

/-- C8: `changeImage` performs no membership validation: for every string `f`,
even one not in `state.images`, the mutation succeeds (it is a total function
with no error branch) and sets `state.image` to `f`. -/
theorem changeImage_no_validation (state : StoreState) (f : String)
    (h : f ∉ state.images) :
    (changeImage state f).1.image = f := rfl

/-- Witness for C8: a filename absent from the initial images list is accepted
and stored. -/
theorem changeImage_no_validation_witness :
    "not_an_image.png" ∉ initState.images
    ∧ (changeImage initState "not_an_image.png").1.image = "not_an_image.png" :=
  ⟨by decide, changeImage_no_validation initState "not_an_image.png" (by decide)⟩

/-- C9: `cacheImages` leaves the entire store state unchanged — `base`,
`images`, `image`, and `backgroundInTransition` all keep their pre-invocation
values — and its only effect is the list of image-request URLs it issues. -/
theorem cacheImages_frame (state : StoreState) :
    (cacheImages state).1 = state := rfl

/-- C10: each setter mutation modifies only its own field: `changeImage`
leaves `backgroundInTransition`, `base` and `images` unchanged, and
`changeBackgroundInTransition` leaves `image`, `base` and `images`
unchanged. -/
theorem setters_frame (state : StoreState) (f : String) (b : Bool) :
    (changeImage state f).1.backgroundInTransition = state.backgroundInTransition
    ∧ (changeImage state f).1.base = state.base
    ∧ (changeImage state f).1.images = state.images
    ∧ (changeBackgroundInTransition state b).1.image = state.image
    ∧ (changeBackgroundInTransition state b).1.base = state.base
    ∧ (changeBackgroundInTransition state b).1.images = state.images :=
  ⟨rfl, rfl, rfl, rfl, rfl, rfl⟩

end Blog
